import Mathlib

/-!
Verification of the World Monitor dashboard (Python edition port).

The repository ships a Flask backend (cache + source fetchers, per its
README) together with a browser client (`static/js/dashboard.js`,
`static/js/map.js`) and desktop-launcher glue.  The backend service files
are not part of this excerpt, so the cache and fetcher layer is modelled
from the specification; the client-side rendering and map-layer logic is
embedded directly from the JavaScript sources.
-/

/-! ## Cache layer (backend, absent from the excerpt) -/

/-- Modelled from the spec: `services/cache.py` is missing from the excerpt.
A cache entry holds an opaque value, the timestamp at which it was stored,
and its time-to-live in seconds. -/
structure CacheEntry (α : Type) where
  value : α
  stored_at : Nat
  ttl : Nat
deriving Repr, DecidableEq

/-- Modelled from the spec: an entry is valid iff `now - stored_at < TTL`. -/
def CacheEntry.valid {α : Type} (e : CacheEntry α) (now : Nat) : Bool :=
  decide (now - e.stored_at < e.ttl)

/-- Modelled from the spec: `get(key) -> value or absent`; an invalid entry
is treated as absent (fetch miss), not served.  The store for one key is an
optional entry. -/
def cacheGet {α : Type} (now : Nat) (store : Option (CacheEntry α)) : Option α :=
  match store with
  | none => none
  | some e => if e.valid now then some e.value else none

/-- Modelled from the spec: the cache-or-fetch path of an endpoint.  On a
hit the stored value is returned and the fetcher is not invoked; on a miss
the fetcher is invoked once.  The second component counts fetcher
invocations. -/
def cachedFetch {α : Type} (now : Nat) (store : Option (CacheEntry α))
    (fetcher : α) : α × Nat :=
  match cacheGet now store with
  | some v => (v, 0)
  | none => (fetcher, 1)

/-! ## Earthquake fetcher (backend, absent from the excerpt) -/

/-- Modelled from the spec: one feature of the upstream GeoJSON feed, with
the properties the fetcher reads (magnitude, event time in milliseconds,
place description). -/
structure QuakeFeature where
  mag : Rat
  time : Nat
  place : String
deriving Repr, DecidableEq

/-- Modelled from the spec: the normalized earthquake record. -/
structure EarthquakeEvent where
  magnitude : Rat
  time : Nat
  place : String
deriving Repr, DecidableEq

/-- Mapping from a feed feature to the normalized record shape. -/
def QuakeFeature.toEvent (f : QuakeFeature) : EarthquakeEvent :=
  { magnitude := f.mag, time := f.time, place := f.place }

/-- 24 hours in milliseconds. -/
def dayMs : Nat := 24 * 60 * 60 * 1000

/-- Modelled from the spec: `earthquake_service.py` is missing from the
excerpt.  The fetcher filters the feed to magnitude ≥ 4.5 within the last
24 hours and maps features to `EarthquakeEvent`. -/
def fetchEarthquakes (now : Nat) (feed : List QuakeFeature) : List EarthquakeEvent :=
  (feed.filter (fun f => decide ((4.5 : Rat) ≤ f.mag ∧ now - f.time ≤ dayMs))).map
    QuakeFeature.toEvent

/-! ## RSS fetcher (backend, absent from the excerpt) -/

/-- Modelled from the spec: one normalized RSS item (source feed name,
title, link). -/
structure RssItem where
  source : String
  title : String
  link : String
deriving Repr, DecidableEq

/-- Modelled from the spec: `rss_service.py` is missing from the excerpt.
Each configured source yields either its parsed item list (`some items`) or
a fetch failure such as a timeout (`none`); the fetcher concatenates all
sources' items, and a failed source contributes nothing rather than
blocking the others. -/
def fetchAllRss (results : List (Option (List RssItem))) : List RssItem :=
  (results.map (fun r => r.getD [])).flatten

/-- A 16-source scenario in which source number 7 times out and every other
source returns exactly one item. -/
def rssScenario16 : List (Option (List RssItem)) :=
  (List.range 16).map (fun n =>
    if n = 7 then none
    else some [{ source := "src" ++ toString n, title := "t", link := "l" }])

/-! ## Dashboard client (`static/js/dashboard.js`, embedded from source) -/

/-- One normalized news item as the client receives it from `/api/news`;
`is_alert` is computed server-side. -/
structure NewsItem where
  source : String
  title : String
  link : String
  published : String
  summary : Option String
  is_alert : Bool
deriving Repr, DecidableEq

/-- One GDELT item as the client receives it from `/api/gdelt`. -/
structure GdeltItem where
  source : Option String
  title : String
  url : String
deriving Repr, DecidableEq

/-- The content a panel renderer writes into its container: either a
placeholder message (a `loading` div) or the list of rendered items. -/
inductive PanelContent (α : Type) where
  | message (text : String)
  | items (rendered : List α)
deriving Repr, DecidableEq

/-- `renderNews` (dashboard.js:109): an empty list renders the
`No news available` placeholder; otherwise `items.slice(0, 100)` is
rendered. -/
def renderNews (items : List NewsItem) : PanelContent NewsItem :=
  if items.length = 0 then .message "No news available"
  else .items (items.take 100)

/-- The outcome of `loadNews`'s fetch for the news-list container
(dashboard.js:88): on success the data is passed to `renderNews`, and the
`.catch` handler writes the `Failed to load news` placeholder, so no
exception escapes. -/
def loadNews (resp : Except String (List NewsItem)) : PanelContent NewsItem :=
  match resp with
  | .error _ => .message "Failed to load news"
  | .ok data => renderNews data

/-- The item list `loadNews` hands to `renderAlerts`
(dashboard.js:98): `data.filter(d => d.is_alert)`. -/
def loadNewsAlertItems (data : List NewsItem) : List NewsItem :=
  data.filter (fun d => d.is_alert)

/-- `renderAlerts` (dashboard.js:125): empty input renders the
`No active alerts` placeholder, otherwise all given items. -/
def renderAlerts (items : List NewsItem) : PanelContent NewsItem :=
  if items.length = 0 then .message "No active alerts"
  else .items items

/-- `renderTicker` (dashboard.js:140): the ticker is the first 10 alert
items followed by the first 15 items of the list. -/
def renderTicker (items : List NewsItem) : List NewsItem :=
  let alertItems := (items.filter (fun i => i.is_alert)).take 10
  let regularItems := items.take 15
  alertItems ++ regularItems

/-- `renderGdelt` (dashboard.js:200): empty input renders the
`No GDELT data available` placeholder, otherwise `items.slice(0, 50)`. -/
def renderGdelt (items : List GdeltItem) : PanelContent GdeltItem :=
  if items.length = 0 then .message "No GDELT data available"
  else .items (items.take 50)

/-- The outcome of `loadGdelt`'s fetch for the gdelt-list container
(dashboard.js:188): success goes to `renderGdelt`, the `.catch` handler
writes the `Failed to load GDELT data` placeholder. -/
def loadGdelt (resp : Except String (List GdeltItem)) : PanelContent GdeltItem :=
  match resp with
  | .error _ => .message "Failed to load GDELT data"
  | .ok data => renderGdelt data

/-- The URL `loadNews` requests (dashboard.js:90): base
`/api/news?limit=200`, plus optional source and alerts query parameters.
The source value is taken already URI-encoded. -/
def newsRequestUrl (sourceFilter : Option String) (alertsOnly : Bool) : String :=
  let url := "/api/news?limit=200"
  let url := match sourceFilter with
    | some s => url ++ "&source=" ++ s
    | none => url
  if alertsOnly then url ++ "&alerts=true" else url

/-- `REFRESH_INTERVAL` (dashboard.js:7): 3 minutes in milliseconds. -/
def REFRESH_INTERVAL : Nat := 180000

/-- The API endpoints requested by one run of `loadAllData`
(dashboard.js:66): `loadNews`, `loadEarthquakes`, `loadConflictZones`,
`loadHotspots`, `loadGdelt`, and `loadStats` (conflicts and disasters). -/
def loadAllDataEndpoints : List String :=
  ["/api/news", "/api/earthquakes", "/api/layers/conflict-zones",
   "/api/layers/hotspots", "/api/gdelt", "/api/conflicts", "/api/disasters"]

/-- The static map-layer endpoints fetched only by `loadLayerData`
(map.js:146) when the corresponding layer checkbox is toggled on while the
layer group is empty. -/
def onDemandLayerEndpoints : List String :=
  ["/api/layers/military-bases", "/api/layers/nuclear",
   "/api/layers/waterways", "/api/layers/cables"]

/-- Every endpoint whose data the dashboard renders (polled panels and map
layers, plus the on-demand static layers). -/
def renderedEndpoints : List String :=
  loadAllDataEndpoints ++ onDemandLayerEndpoints

/-- The requests issued by the timer tick number `n` of
`setInterval(loadAllData, REFRESH_INTERVAL)` (dashboard.js:18): every tick
runs `loadAllData`. -/
def scheduledRequests (_n : Nat) : List String :=
  loadAllDataEndpoints

/-- The wall-clock time of tick `n` in milliseconds after `init`. -/
def tickTime (n : Nat) : Nat := n * REFRESH_INTERVAL

/-! ## Map module (`static/js/map.js`, embedded from source)

A Leaflet layer group is modelled as the list of layer objects it holds, a
marker as its position paired with the record it was built from (the popup
content is a function of that record), and the conflict-event cluster group
by the markers it contains, since the layer group holds exactly that one
cluster after an update. -/

/-- A positioned map object (marker or circle) built from record `α`. -/
structure Marker (α : Type) where
  pos : Int × Int
  record : α
deriving Repr, DecidableEq

/-- A map marker whose coordinates come from fields that may be absent
(`none` models JavaScript `null`/`undefined`). -/
structure LooseMarker (α : Type) where
  pos : Option Int × Option Int
  record : α
deriving Repr, DecidableEq

/-- `clearLayers()` on a layer group: all contained layers are removed. -/
def clearLayers {α : Type} (_g : List α) : List α := []

/-- `addLayer(m)` on a layer group: the object is appended. -/
def addLayer {α : Type} (g : List α) (m : α) : List α := g ++ [m]

/-- One earthquake record as rendered by `updateEarthquakes`. -/
structure EarthquakeRecord where
  lat : Int
  lng : Int
  magnitude : Rat
  depth : Rat
  place : String
  tsunami : Bool
deriving Repr, DecidableEq

/-- One conflict-zone record (rendered as an `L.circle`). -/
structure ConflictZoneRecord where
  lat : Int
  lng : Int
  radius : Nat
  name : String
deriving Repr, DecidableEq

/-- One hotspot record. -/
structure HotspotRecord where
  lat : Int
  lng : Int
  name : String
  level : String
deriving Repr, DecidableEq

/-- One military-base record. -/
structure BaseRecord where
  lat : Int
  lng : Int
  name : String
  operator : String
deriving Repr, DecidableEq

/-- One nuclear-facility record. -/
structure NuclearRecord where
  lat : Int
  lng : Int
  name : String
  country : String
deriving Repr, DecidableEq

/-- One strategic-waterway record. -/
structure WaterwayRecord where
  lat : Int
  lng : Int
  name : String
  traffic : String
deriving Repr, DecidableEq

/-- One undersea-cable record; `points` may be absent (a falsy
`cable.points`). -/
structure CableRecord where
  points : Option (List (Int × Int))
  name : String
  capacity : String
deriving Repr, DecidableEq

/-- One disaster record; coordinates may be absent. -/
structure DisasterRecord where
  lat : Option Int
  lng : Option Int
  title : String
  category : String
  source : String
deriving Repr, DecidableEq

/-- One conflict-event record; coordinates may be absent. -/
structure ConflictEventRecord where
  lat : Option Int
  lng : Option Int
  eventType : String
  country : String
  date : String
deriving Repr, DecidableEq

/-- The polyline `updateCables` constructs:
`latlngs = cable.points.map(p => [p[0], p[1]])` plus the cable record for
the popup. -/
structure Polyline where
  latlngs : List (Int × Int)
  cable : CableRecord
deriving Repr, DecidableEq

/-- Truthiness of a possibly-absent numeric field: JavaScript `!v` holds
for `null`, `undefined` and `0`. -/
def truthyNum : Option Int → Bool
  | none => false
  | some n => !(n == 0)

/-- The marker `updateDisasters` builds: `L.marker([d.lat, d.lng], ...)`. -/
def disasterMarker (d : DisasterRecord) : LooseMarker DisasterRecord :=
  ⟨(d.lat, d.lng), d⟩

/-- The marker `updateConflictEvents` builds. -/
def conflictMarker (ev : ConflictEventRecord) : LooseMarker ConflictEventRecord :=
  ⟨(ev.lat, ev.lng), ev⟩

/-- The polyline `updateCables` builds from a cable's point list. -/
def cablePolyline (c : CableRecord) (ps : List (Int × Int)) : Polyline :=
  { latlngs := ps.map (fun p => (p.1, p.2)), cable := c }

/-- `updateEarthquakes` (map.js:169): clear the layer group, then add one
marker per record. -/
def updateEarthquakes (data : List EarthquakeRecord)
    (g : List (Marker EarthquakeRecord)) : List (Marker EarthquakeRecord) :=
  data.foldl (fun acc eq => addLayer acc ⟨(eq.lat, eq.lng), eq⟩) (clearLayers g)

/-- `updateConflictZones` (map.js:186): clear, then add one circle per
record. -/
def updateConflictZones (data : List ConflictZoneRecord)
    (g : List (Marker ConflictZoneRecord)) : List (Marker ConflictZoneRecord) :=
  data.foldl (fun acc zone => addLayer acc ⟨(zone.lat, zone.lng), zone⟩) (clearLayers g)

/-- `updateHotspots` (map.js:206): clear, then add one marker per record. -/
def updateHotspots (data : List HotspotRecord)
    (g : List (Marker HotspotRecord)) : List (Marker HotspotRecord) :=
  data.foldl (fun acc hs => addLayer acc ⟨(hs.lat, hs.lng), hs⟩) (clearLayers g)

/-- `updateBases` (map.js:221): clear, then add one marker per record. -/
def updateBases (data : List BaseRecord)
    (g : List (Marker BaseRecord)) : List (Marker BaseRecord) :=
  data.foldl (fun acc base => addLayer acc ⟨(base.lat, base.lng), base⟩) (clearLayers g)

/-- `updateNuclear` (map.js:235): clear, then add one marker per record. -/
def updateNuclear (data : List NuclearRecord)
    (g : List (Marker NuclearRecord)) : List (Marker NuclearRecord) :=
  data.foldl (fun acc fac => addLayer acc ⟨(fac.lat, fac.lng), fac⟩) (clearLayers g)

/-- `updateWaterways` (map.js:250): clear, then add one marker per record. -/
def updateWaterways (data : List WaterwayRecord)
    (g : List (Marker WaterwayRecord)) : List (Marker WaterwayRecord) :=
  data.foldl (fun acc ww => addLayer acc ⟨(ww.lat, ww.lng), ww⟩) (clearLayers g)

/-- `updateCables` (map.js:265): clear, then for each record add a polyline
only when `cable.points && cable.points.length >= 2` (an absent `points` is
falsy; an array is always truthy, so only the length test matters for a
present list). -/
def updateCables (data : List CableRecord)
    (g : List Polyline) : List Polyline :=
  data.foldl
    (fun acc cable =>
      match cable.points with
      | some ps => if 2 ≤ ps.length then addLayer acc (cablePolyline cable ps) else acc
      | none => acc)
    (clearLayers g)

/-- `updateDisasters` (map.js:286): clear, then skip a record when
`d.lat === 0 && d.lng === 0`, else add its marker. -/
def updateDisasters (data : List DisasterRecord)
    (g : List (LooseMarker DisasterRecord)) : List (LooseMarker DisasterRecord) :=
  data.foldl
    (fun acc d =>
      if d.lat == some 0 && d.lng == some 0 then acc
      else addLayer acc (disasterMarker d))
    (clearLayers g)

/-- `updateConflictEvents` (map.js:302): clear the layer group, build a
cluster, skip a record when `!ev.lat || !ev.lng`, else add its marker to
the cluster, and finally add the cluster to the group (the group's markers
are therefore the cluster's). -/
def updateConflictEvents (data : List ConflictEventRecord)
    (g : List (LooseMarker ConflictEventRecord)) : List (LooseMarker ConflictEventRecord) :=
  let cluster := data.foldl
    (fun acc ev =>
      if !truthyNum ev.lat || !truthyNum ev.lng then acc
      else addLayer acc (conflictMarker ev))
    []
  clearLayers g ++ cluster

/-- Renaming a news item's title, leaving every other field in place. -/
def retitle (f : String → String) (i : NewsItem) : NewsItem :=
  { i with title := f i.title }

/-- An all-alert news item with a numbered title. -/
def tickerAlert (n : Nat) : NewsItem :=
  { source := "s", title := "t" ++ toString n, link := "l", published := "p",
    summary := none, is_alert := true }

/-- Eleven distinct alert items. -/
def elevenAlerts : List NewsItem := (List.range 11).map tickerAlert

/-! ## Claims about the backend layer -/

/-- Claim C1: a cache entry is valid iff `now - stored_at < TTL`; when the
age is below the TTL, `get` returns the stored value without invoking the
fetcher, and when the age is at or above the TTL the entry is treated as
absent and never served. -/
theorem cache_ttl_validity :
    (∀ (α : Type) (e : CacheEntry α) (now : Nat),
        e.valid now = true ↔ now - e.stored_at < e.ttl)
    ∧ (∀ (α : Type) (e : CacheEntry α) (now : Nat) (fetcher : α),
        now - e.stored_at < e.ttl →
          cachedFetch now (some e) fetcher = (e.value, 0))
    ∧ (∀ (α : Type) (e : CacheEntry α) (now : Nat) (fetcher : α),
        e.ttl ≤ now - e.stored_at →
          cacheGet now (some e) = none ∧
          cachedFetch now (some e) fetcher = (fetcher, 1)) := by
  refine ⟨fun α e now => ?_, fun α e now fetcher h => ?_, fun α e now fetcher h => ?_⟩
  · simp [CacheEntry.valid]
  · simp [cachedFetch, cacheGet, CacheEntry.valid, h]
  · have hv : ¬ (now - e.stored_at < e.ttl) := not_lt.mpr h
    constructor
    · simp [cacheGet, CacheEntry.valid, hv]
    · simp [cachedFetch, cacheGet, CacheEntry.valid, hv]

/-- Witness for C1: a fresh entry (age 20, TTL 50) is served without a
fetch; an expired entry (age 100, TTL 50) is absent. -/
theorem cache_ttl_validity_witness :
    cachedFetch 120 (some (⟨42, 100, 50⟩ : CacheEntry Nat)) 7 = (42, 0)
    ∧ cacheGet 200 (some (⟨42, 100, 50⟩ : CacheEntry Nat)) = none :=
  ⟨cache_ttl_validity.2.1 Nat ⟨42, 100, 50⟩ 120 7 (by decide),
   (cache_ttl_validity.2.2 Nat ⟨42, 100, 50⟩ 200 0 (by decide)).1⟩

/-- Claim C2: the earthquake fetcher's output contains exactly the upstream
events with magnitude ≥ 4.5 whose event time lies within the last 24 hours;
in a feed with magnitudes 3.0 and 5.2, only the 5.2 event appears. -/
theorem earthquake_filter :
    (∀ (now : Nat) (feed : List QuakeFeature) (e : EarthquakeEvent),
        e ∈ fetchEarthquakes now feed ↔
          ∃ f, f ∈ feed ∧ ((4.5 : Rat) ≤ f.mag ∧ now - f.time ≤ dayMs)
            ∧ e = f.toEvent)
    ∧ fetchEarthquakes 100000000
        [⟨3, 99999000, "low"⟩, ⟨5.2, 99999000, "big"⟩]
        = [⟨5.2, 99999000, "big"⟩] := by
  constructor
  · intro now feed e
    simp only [fetchEarthquakes, List.mem_map, List.mem_filter,
      decide_eq_true_eq]
    constructor
    · rintro ⟨f, ⟨hf, hc⟩, rfl⟩
      exact ⟨f, hf, hc, rfl⟩
    · rintro ⟨f, hf, hc, rfl⟩
      exact ⟨f, ⟨hf, hc⟩, rfl⟩
  · norm_num [fetchEarthquakes, QuakeFeature.toEvent, dayMs]

/-- Claim C6: a fetch failure of one RSS source does not block the other
sources' items: the returned list's length is the sum of the successful
sources' item counts, every successful source's items are all present, and
in the 16-source scenario with one timeout the 15 remaining items are
returned. -/
theorem rss_partial_failure :
    (∀ results : List (Option (List RssItem)),
        (fetchAllRss results).length
          = (results.map (fun r => (r.getD []).length)).sum)
    ∧ (∀ (results : List (Option (List RssItem))) (items : List RssItem),
        some items ∈ results → ∀ i ∈ items, i ∈ fetchAllRss results)
    ∧ rssScenario16.length = 16
    ∧ (none : Option (List RssItem)) ∈ rssScenario16
    ∧ (fetchAllRss rssScenario16).length = 15 := by
  refine ⟨fun results => ?_, fun results items hmem i hi => ?_, by rfl, by decide, by rfl⟩
  · simp only [fetchAllRss, List.length_flatten, List.map_map]
    rfl
  · have : items ∈ results.map (fun r => r.getD []) := by
      exact List.mem_map.mpr ⟨some items, hmem, rfl⟩
    exact List.mem_flatten.mpr ⟨items, this, hi⟩

/-- Witness for C6: with sources `[some [item], none]`, the surviving
source's item is in the aggregated output. -/
theorem rss_partial_failure_witness :
    (⟨"BBC", "headline", "url"⟩ : RssItem)
      ∈ fetchAllRss [some [⟨"BBC", "headline", "url"⟩], none] :=
  rss_partial_failure.2.1 [some [⟨"BBC", "headline", "url"⟩], none]
    [⟨"BBC", "headline", "url"⟩] (by decide) ⟨"BBC", "headline", "url"⟩ (by decide)

/-! ## Closed forms of the layer update functions -/

/-- Folding `addLayer` over records appends one object per record. -/
theorem foldl_addLayer_eq {α β : Type} (f : α → β) (data : List α)
    (init : List β) :
    data.foldl (fun acc x => addLayer acc (f x)) init = init ++ data.map f := by
  induction data generalizing init with
  | nil => simp
  | cons a t ih =>
      rw [List.foldl_cons, ih]
      simp [addLayer, List.append_assoc]

/-- Folding a skip-or-add step appends one object per non-skipped record. -/
theorem foldl_skipAdd_eq {α β : Type} (skip : α → Bool) (f : α → β)
    (data : List α) (init : List β) :
    data.foldl (fun acc x => if skip x then acc else addLayer acc (f x)) init
      = init ++ (data.filter (fun x => !skip x)).map f := by
  induction data generalizing init with
  | nil => simp
  | cons a t ih =>
      rw [List.foldl_cons, ih]
      cases h : skip a <;>
        simp [h, addLayer, List.filter_cons, List.append_assoc]

/-- The cable fold appends exactly the polylines of the records whose point
list is present with at least two points. -/
theorem foldl_cableStep_eq (data : List CableRecord) (init : List Polyline) :
    data.foldl
      (fun acc cable =>
        match cable.points with
        | some ps => if 2 ≤ ps.length then addLayer acc (cablePolyline cable ps) else acc
        | none => acc) init
      = init ++ data.filterMap
          (fun cable =>
            match cable.points with
            | some ps => if 2 ≤ ps.length then some (cablePolyline cable ps) else none
            | none => none) := by
  induction data generalizing init with
  | nil => simp
  | cons c t ih =>
      rw [List.foldl_cons, ih]
      cases h : c.points with
      | none => simp [h, List.filterMap_cons]
      | some ps =>
          by_cases h2 : 2 ≤ ps.length <;>
            simp [h, h2, addLayer, List.filterMap_cons, List.append_assoc]

/-- `updateDisasters` renders the records that are not at the zero-zero
coordinate. -/
theorem updateDisasters_eq (data : List DisasterRecord)
    (g : List (LooseMarker DisasterRecord)) :
    updateDisasters data g
      = (data.filter (fun d => !(d.lat == some 0 && d.lng == some 0))).map
          disasterMarker := by
  have := foldl_skipAdd_eq (fun d : DisasterRecord => d.lat == some 0 && d.lng == some 0)
    disasterMarker data []
  simpa [updateDisasters, clearLayers] using this

/-- `updateConflictEvents` renders the records whose coordinates are both
truthy. -/
theorem updateConflictEvents_eq (data : List ConflictEventRecord)
    (g : List (LooseMarker ConflictEventRecord)) :
    updateConflictEvents data g
      = (data.filter (fun ev => truthyNum ev.lat && truthyNum ev.lng)).map
          conflictMarker := by
  have := foldl_skipAdd_eq (fun ev : ConflictEventRecord => !truthyNum ev.lat || !truthyNum ev.lng)
    conflictMarker data []
  simpa [updateConflictEvents, clearLayers, Bool.not_or, Bool.not_not] using this

/-- `updateCables` renders exactly the well-formed cables. -/
theorem updateCables_eq (data : List CableRecord) (g : List Polyline) :
    updateCables data g
      = data.filterMap
          (fun cable =>
            match cable.points with
            | some ps => if 2 ≤ ps.length then some (cablePolyline cable ps) else none
            | none => none) := by
  have := foldl_cableStep_eq data []
  simpa [updateCables, clearLayers] using this

/-! ## Claims about the map module -/

/-- Claim C3: `updateDisasters` skips a record exactly when `lat` and `lng`
are both zero, and `updateConflictEvents` skips a record exactly when `lat`
or `lng` is falsy (zero, null or undefined); no marker is added for such a
record. -/
theorem zero_coord_markers_skipped :
    (∀ (data : List DisasterRecord) (g : List (LooseMarker DisasterRecord))
        (d : DisasterRecord),
        disasterMarker d ∈ updateDisasters data g ↔
          d ∈ data ∧ ¬(d.lat = some 0 ∧ d.lng = some 0))
    ∧ (∀ (data : List ConflictEventRecord)
        (g : List (LooseMarker ConflictEventRecord)) (ev : ConflictEventRecord),
        conflictMarker ev ∈ updateConflictEvents data g ↔
          ev ∈ data ∧ truthyNum ev.lat = true ∧ truthyNum ev.lng = true)
    ∧ (∀ (data : List DisasterRecord) (g : List (LooseMarker DisasterRecord))
        (d : DisasterRecord),
        d.lat = some 0 ∧ d.lng = some 0 →
          disasterMarker d ∉ updateDisasters data g)
    ∧ (∀ (data : List ConflictEventRecord)
        (g : List (LooseMarker ConflictEventRecord)) (ev : ConflictEventRecord),
        (truthyNum ev.lat = false ∨ truthyNum ev.lng = false) →
          conflictMarker ev ∉ updateConflictEvents data g) := by
  have dinj : Function.Injective disasterMarker := fun a b h =>
    congrArg LooseMarker.record h
  have cinj : Function.Injective conflictMarker := fun a b h =>
    congrArg LooseMarker.record h
  have hd : ∀ (data : List DisasterRecord) (g : List (LooseMarker DisasterRecord))
      (d : DisasterRecord),
      disasterMarker d ∈ updateDisasters data g ↔
        d ∈ data ∧ ¬(d.lat = some 0 ∧ d.lng = some 0) := by
    intro data g d
    rw [updateDisasters_eq, List.mem_map_of_injective dinj, List.mem_filter]
    simp only [Bool.not_eq_true', Bool.and_eq_false_iff, beq_eq_false_iff_ne,
      ne_eq, not_and_or]
  have hc : ∀ (data : List ConflictEventRecord)
      (g : List (LooseMarker ConflictEventRecord)) (ev : ConflictEventRecord),
      conflictMarker ev ∈ updateConflictEvents data g ↔
        ev ∈ data ∧ truthyNum ev.lat = true ∧ truthyNum ev.lng = true := by
    intro data g ev
    rw [updateConflictEvents_eq, List.mem_map_of_injective cinj, List.mem_filter]
    simp
  refine ⟨hd, hc, ?_, ?_⟩
  · intro data g d h hmem
    exact ((hd data g d).mp hmem).2 h
  · intro data g ev h hmem
    rcases ((hc data g ev).mp hmem).2 with ⟨h1, h2⟩
    cases h with
    | inl hf => rw [hf] at h1; cases h1
    | inr hf => rw [hf] at h2; cases h2

/-- Witness for C3: a disaster record at the zero-zero coordinate gets no
marker, and a conflict event with an absent latitude gets no marker. -/
theorem zero_coord_markers_skipped_witness :
    disasterMarker ⟨some 0, some 0, "t", "c", "s"⟩
      ∉ updateDisasters [⟨some 0, some 0, "t", "c", "s"⟩] []
    ∧ conflictMarker ⟨none, some 5, "Battles", "X", "2024-01-01"⟩
      ∉ updateConflictEvents [⟨none, some 5, "Battles", "X", "2024-01-01"⟩] [] :=
  ⟨zero_coord_markers_skipped.2.2.1 [⟨some 0, some 0, "t", "c", "s"⟩] []
      ⟨some 0, some 0, "t", "c", "s"⟩ ⟨rfl, rfl⟩,
   zero_coord_markers_skipped.2.2.2 [⟨none, some 5, "Battles", "X", "2024-01-01"⟩] []
      ⟨none, some 5, "Battles", "X", "2024-01-01"⟩ (Or.inl rfl)⟩

/-- The per-record action of the cable fold yields a polyline exactly when
the point list is present with at least two points. -/
theorem cableAction_eq_some (c : CableRecord) (p : Polyline) :
    (match c.points with
     | some ps => if 2 ≤ ps.length then some (cablePolyline c ps) else none
     | none => none) = some p
    ↔ ∃ ps, c.points = some ps ∧ 2 ≤ ps.length ∧ cablePolyline c ps = p := by
  cases hx : c.points with
  | none => simp
  | some ps => by_cases h2 : 2 ≤ ps.length <;> simp [h2]

/-- Claim C9: `updateCables` adds a polyline for a record iff its `points`
field is present with at least 2 points, and every polyline in the layer
has at least 2 points. -/
theorem cable_polyline_condition :
    (∀ (data : List CableRecord) (g : List Polyline) (p : Polyline),
        p ∈ updateCables data g ↔
          ∃ c ps, c ∈ data ∧ c.points = some ps ∧ 2 ≤ ps.length
            ∧ p = cablePolyline c ps)
    ∧ (∀ (data : List CableRecord) (g : List Polyline) (p : Polyline),
        p ∈ updateCables data g → 2 ≤ p.latlngs.length) := by
  have hmem : ∀ (data : List CableRecord) (g : List Polyline) (p : Polyline),
      p ∈ updateCables data g ↔
        ∃ c ps, c ∈ data ∧ c.points = some ps ∧ 2 ≤ ps.length
          ∧ p = cablePolyline c ps := by
    intro data g p
    rw [updateCables_eq, List.mem_filterMap]
    constructor
    · rintro ⟨c, hc, hf⟩
      rcases (cableAction_eq_some c p).mp hf with ⟨ps, h, h2, hp⟩
      exact ⟨c, ps, hc, h, h2, hp.symm⟩
    · rintro ⟨c, ps, hc, h, h2, rfl⟩
      exact ⟨c, hc, (cableAction_eq_some c _).mpr ⟨ps, h, h2, rfl⟩⟩
  refine ⟨hmem, ?_⟩
  intro data g p hp
  rcases (hmem data g p).mp hp with ⟨c, ps, _, _, h2, rfl⟩
  simpa [cablePolyline] using h2

/-- Witness for C9: a two-point cable's polyline is in the layer and has
two points. -/
theorem cable_polyline_condition_witness :
    2 ≤ (cablePolyline ⟨some [(1, 2), (3, 4)], "SEA-ME-WE", "100T"⟩
          [(1, 2), (3, 4)]).latlngs.length :=
  cable_polyline_condition.2 [⟨some [(1, 2), (3, 4)], "SEA-ME-WE", "100T"⟩] []
    (cablePolyline ⟨some [(1, 2), (3, 4)], "SEA-ME-WE", "100T"⟩ [(1, 2), (3, 4)])
    (by decide)

/-- Claim C10: every map update function clears its layer group before
adding markers, so updating twice with the same data equals updating once,
and the layer's contents are independent of the previous state. -/
theorem layer_update_idempotent :
    (∀ (data : List EarthquakeRecord) (g g' : List (Marker EarthquakeRecord)),
        updateEarthquakes data (updateEarthquakes data g) = updateEarthquakes data g
        ∧ updateEarthquakes data g = updateEarthquakes data g')
    ∧ (∀ (data : List ConflictZoneRecord) (g g' : List (Marker ConflictZoneRecord)),
        updateConflictZones data (updateConflictZones data g) = updateConflictZones data g
        ∧ updateConflictZones data g = updateConflictZones data g')
    ∧ (∀ (data : List HotspotRecord) (g g' : List (Marker HotspotRecord)),
        updateHotspots data (updateHotspots data g) = updateHotspots data g
        ∧ updateHotspots data g = updateHotspots data g')
    ∧ (∀ (data : List BaseRecord) (g g' : List (Marker BaseRecord)),
        updateBases data (updateBases data g) = updateBases data g
        ∧ updateBases data g = updateBases data g')
    ∧ (∀ (data : List NuclearRecord) (g g' : List (Marker NuclearRecord)),
        updateNuclear data (updateNuclear data g) = updateNuclear data g
        ∧ updateNuclear data g = updateNuclear data g')
    ∧ (∀ (data : List WaterwayRecord) (g g' : List (Marker WaterwayRecord)),
        updateWaterways data (updateWaterways data g) = updateWaterways data g
        ∧ updateWaterways data g = updateWaterways data g')
    ∧ (∀ (data : List CableRecord) (g g' : List Polyline),
        updateCables data (updateCables data g) = updateCables data g
        ∧ updateCables data g = updateCables data g')
    ∧ (∀ (data : List DisasterRecord) (g g' : List (LooseMarker DisasterRecord)),
        updateDisasters data (updateDisasters data g) = updateDisasters data g
        ∧ updateDisasters data g = updateDisasters data g')
    ∧ (∀ (data : List ConflictEventRecord)
        (g g' : List (LooseMarker ConflictEventRecord)),
        updateConflictEvents data (updateConflictEvents data g) = updateConflictEvents data g
        ∧ updateConflictEvents data g = updateConflictEvents data g') :=
  ⟨fun _ _ _ => ⟨rfl, rfl⟩, fun _ _ _ => ⟨rfl, rfl⟩, fun _ _ _ => ⟨rfl, rfl⟩,
   fun _ _ _ => ⟨rfl, rfl⟩, fun _ _ _ => ⟨rfl, rfl⟩, fun _ _ _ => ⟨rfl, rfl⟩,
   fun _ _ _ => ⟨rfl, rfl⟩, fun _ _ _ => ⟨rfl, rfl⟩, fun _ _ _ => ⟨rfl, rfl⟩⟩

/-! ## Claims about the dashboard client -/

/-- Claim C4: a failed or empty feed degrades only its own panel: an empty
news array renders the `No news available` placeholder, a news fetch
rejection renders `Failed to load news`, and the GDELT panel behaves
analogously; both load functions are total, so no exception escapes. -/
theorem panel_degrades_gracefully :
    (∀ e : String, loadNews (.error e) = .message "Failed to load news")
    ∧ loadNews (.ok []) = .message "No news available"
    ∧ (∀ e : String, loadGdelt (.error e) = .message "Failed to load GDELT data")
    ∧ loadGdelt (.ok []) = .message "No GDELT data available" :=
  ⟨fun _ => rfl, rfl, fun _ => rfl, rfl⟩

/-- C5 as stated is false: the dashboard renders the undersea-cable layer
from `/api/layers/cables` (map.js:151), but no polling tick of
`loadAllData` ever requests that endpoint. -/
theorem polling_counterexample :
    "/api/layers/cables" ∈ renderedEndpoints
    ∧ "/api/layers/cables" ∉ scheduledRequests 0 := by
  constructor
  · decide
  · decide

/-- Claim C5, amended: `init` schedules `loadAllData` every
`REFRESH_INTERVAL = 180000` ms, and every tick requests the news,
earthquakes, conflict-zones, hotspots, gdelt, conflicts and disasters
endpoints; the four static map-layer endpoints are fetched only on demand
when their layer is toggled on, never by the polling tick. -/
theorem polling_schedule :
    REFRESH_INTERVAL = 180000
    ∧ (∀ n : Nat, tickTime n = n * 180000)
    ∧ (∀ n : Nat, scheduledRequests n = loadAllDataEndpoints)
    ∧ (∀ e ∈ loadAllDataEndpoints, ∀ n : Nat, e ∈ scheduledRequests n)
    ∧ (∀ e ∈ onDemandLayerEndpoints, ∀ n : Nat, e ∉ scheduledRequests n) := by
  refine ⟨rfl, fun n => rfl, fun n => rfl, fun e he n => he, fun e he n hmem => ?_⟩
  simp only [onDemandLayerEndpoints, List.mem_cons, List.not_mem_nil, or_false] at he
  rcases he with rfl | rfl | rfl | rfl <;>
    simp [scheduledRequests, loadAllDataEndpoints] at hmem

/-- Witness for C5 (amended): tick 5 requests the news endpoint and never
the cables endpoint. -/
theorem polling_schedule_witness :
    "/api/news" ∈ scheduledRequests 5
    ∧ "/api/layers/cables" ∉ scheduledRequests 5 :=
  ⟨polling_schedule.2.2.2.1 "/api/news" (by decide) 5,
   polling_schedule.2.2.2.2 "/api/layers/cables" (by decide) 5⟩

/-- Claim C7: the alerts panel and the ticker's alert section are populated
exactly by filtering on the server-computed `is_alert` field; retitling the
items commutes with the selection, so no client-side keyword matching on
titles takes place. -/
theorem client_alert_selection :
    (∀ (data : List NewsItem) (i : NewsItem),
        i ∈ loadNewsAlertItems data ↔ i ∈ data ∧ i.is_alert = true)
    ∧ (∀ data : List NewsItem,
        renderTicker data
          = (data.filter (fun i => i.is_alert)).take 10 ++ data.take 15)
    ∧ (∀ (f : String → String) (data : List NewsItem),
        loadNewsAlertItems (data.map (retitle f))
          = (loadNewsAlertItems data).map (retitle f))
    ∧ (∀ (f : String → String) (data : List NewsItem),
        renderTicker (data.map (retitle f))
          = (renderTicker data).map (retitle f)) := by
  refine ⟨fun data i => ?_, fun data => rfl, fun f data => ?_, fun f data => ?_⟩
  · simp [loadNewsAlertItems, List.mem_filter]
  · simp only [loadNewsAlertItems, List.filter_map]
    exact congrArg (List.map (retitle f)) (List.filter_congr (fun a _ => rfl))
  · simp only [renderTicker, List.filter_map, List.map_take, List.map_append]
    exact congrArg (fun l => List.take 10 l ++ (data.map (retitle f)).take 15)
      (congrArg (List.map (retitle f)) (List.filter_congr (fun a _ => rfl)))

/-- C8 as stated is false: with eleven alert items, the eleventh (index 10,
within the first 15) is not among the first 10 alerts, so it appears only
once in the ticker, not twice. -/
theorem ticker_single_appearance :
    tickerAlert 10 ∈ elevenAlerts.take 15
    ∧ (tickerAlert 10).is_alert = true
    ∧ (renderTicker elevenAlerts).count (tickerAlert 10) = 1 := by
  refine ⟨by decide, rfl, by decide⟩

/-- Claim C8, amended: `renderNews` renders at most the first 100 items
even though the client requests `limit=200`; the ticker is at most 10 alert
items followed by at most 15 head items, and an alert item that is within
the first 15 items and among the first 10 alert items appears at least
twice in the ticker. -/
theorem news_render_limits :
    (∀ items : List NewsItem,
        renderNews items = .message "No news available"
        ∨ renderNews items = .items (items.take 100))
    ∧ (∀ (items l : List NewsItem),
        renderNews items = .items l → l.length ≤ 100)
    ∧ (∀ (src : Option String) (al : Bool),
        ∃ rest, newsRequestUrl src al = "/api/news?limit=200" ++ rest)
    ∧ (∀ data : List NewsItem,
        renderTicker data
          = (data.filter (fun i => i.is_alert)).take 10 ++ data.take 15
        ∧ ((data.filter (fun i => i.is_alert)).take 10).length ≤ 10
        ∧ (data.take 15).length ≤ 15)
    ∧ (∀ (data : List NewsItem) (i : NewsItem),
        i ∈ data.take 15 → i ∈ (data.filter (fun x => x.is_alert)).take 10 →
          2 ≤ (renderTicker data).count i) := by
  refine ⟨fun items => ?_, fun items l h => ?_, fun src al => ?_,
    fun data => ⟨rfl, ?_, ?_⟩, fun data i h15 h10 => ?_⟩
  · by_cases h : items.length = 0
    · exact Or.inl (by simp [renderNews, h])
    · exact Or.inr (by simp [renderNews, h])
  · by_cases hl : items.length = 0
    · simp [renderNews, hl] at h
    · simp only [renderNews, hl, if_false] at h
      cases h
      simp
  · cases src with
    | none =>
        cases al with
        | false => exact ⟨"", rfl⟩
        | true => exact ⟨"&alerts=true", rfl⟩
    | some s =>
        cases al with
        | false =>
            exact ⟨"&source=" ++ s,
              String.append_assoc "/api/news?limit=200" "&source=" s⟩
        | true =>
            refine ⟨"&source=" ++ s ++ "&alerts=true", ?_⟩
            show "/api/news?limit=200" ++ "&source=" ++ s ++ "&alerts=true" = _
            rw [String.append_assoc "/api/news?limit=200" "&source=" s,
              String.append_assoc "/api/news?limit=200" ("&source=" ++ s)
                "&alerts=true"]
  · simp
  · simp
  · have h1 : 0 < ((data.filter (fun x => x.is_alert)).take 10).count i :=
      List.count_pos_iff.mpr h10
    have h2 : 0 < (data.take 15).count i :=
      List.count_pos_iff.mpr h15
    have : (renderTicker data).count i
        = ((data.filter (fun x => x.is_alert)).take 10).count i
          + (data.take 15).count i := by
      simp [renderTicker, List.count_append]
    omega

/-- Witness for C8 (amended): a single alert item appears twice in the
ticker, and a one-item news list renders within the 100-item bound. -/
theorem news_render_limits_witness :
    2 ≤ (renderTicker [⟨"s", "t", "l", "p", none, true⟩]).count
          ⟨"s", "t", "l", "p", none, true⟩
    ∧ ([(⟨"s", "t", "l", "p", none, true⟩ : NewsItem)]).length ≤ 100 :=
  ⟨news_render_limits.2.2.2.2 [⟨"s", "t", "l", "p", none, true⟩]
      ⟨"s", "t", "l", "p", none, true⟩ (by decide) (by decide),
   news_render_limits.2.1 [⟨"s", "t", "l", "p", none, true⟩]
      [⟨"s", "t", "l", "p", none, true⟩] rfl⟩
